import Mathlib

/-!
Shallow embedding of `gui.py` from the uav-teststand2 repository: the serial
command protocol (`command`), the session event loop and its button-gated
state machine, and the measurement visualization arithmetic.  Python dicts
parsed from JSON are modelled by the `Json` inductive type; Python exceptions
are modelled with `Except PyErr`; wall-clock time and JSON numbers are
modelled by rationals.
-/

/-- Values produced by `json.loads`: null, booleans, numbers, strings,
arrays, and objects (association lists with distinct keys, as Python dicts). -/
inductive Json where
  | null : Json
  | bool (b : Bool) : Json
  | num (q : ℚ) : Json
  | str (s : String) : Json
  | arr (xs : List Json) : Json
  | obj (kvs : List (String × Json)) : Json

/-- Python exceptions that the embedded fragments of `gui.py` can raise. -/
inductive PyErr where
  | keyError (k : String) : PyErr
  | typeError : PyErr
  | serialError : PyErr
deriving DecidableEq

/-- Python subscription `j[k]` with a string key: succeeds only on a dict
that has the key (KeyError when the key is missing, TypeError on any
non-dict value). -/
def getItem : Json → String → Except PyErr Json
  | .obj kvs, k =>
    match kvs.lookup k with
    | some v => .ok v
    | none => .error (.keyError k)
  | _, _ => .error .typeError

/-- Python comparison `v == True` on a JSON-decoded value: true for the
boolean `True` and for the numbers equal to 1 (Python bool/int/float
cross-type equality); false for every other value. -/
def pyEqTrue : Json → Bool
  | .bool b => b
  | .num q => q == 1
  | _ => false

/-- One iteration of the `try` block in `command` (gui.py lines 76-81):
the received line either fails `json.loads`/decoding (`none`) or parses to a
value `j`; the parsed value is returned only when `j['response_type']`
exists and equals the expected response type, and every raised exception
(decode error, TypeError, KeyError, AssertionError) is swallowed,
yielding `none` so the loop continues. -/
def tryAccept (line : Option Json) (responseType : String) : Option Json :=
  match line with
  | none => none
  | some j =>
    match getItem j "response_type" with
    | .error _ => none
    | .ok (.str s) => if s = responseType then some j else none
    | .ok _ => none

/-- Acceptance condition as the spec words it: the line parses to a JSON
object whose `response_type` field equals the command's declared response
type.  Written from the spec for the refinement statement of C1. -/
def isMatchingObj (j : Json) (responseType : String) : Bool :=
  match j with
  | .obj kvs =>
    match kvs.lookup "response_type" with
    | some (.str s) => s == responseType
    | _ => false
  | _ => false

/-- Result of `command`: the accepted response, or `timeout` for the
`return None` path. -/
inductive CmdResult where
  | timeout : CmdResult
  | response (j : Json) : CmdResult

/-- The polling loop of `command` (gui.py lines 71-81).  Iteration `n`
observes `clock n` (the value of `time.time()`), `inWaiting n` (whether
`ser.in_waiting` is nonzero) and, when input is waiting, the parsed line
`line n`.  The loop returns the result paired with the index of the
iteration that produced it; `fuel` bounds the number of iterations
modelled, with `none` meaning the loop was still running. -/
def commandLoop (rt : String) (tmo startT : ℚ) (clock : ℕ → ℚ)
    (inWaiting : ℕ → Bool) (line : ℕ → Option Json) :
    ℕ → ℕ → Option (CmdResult × ℕ)
  | 0, _ => none
  | fuel + 1, n =>
    if clock n - startT > tmo then some (.timeout, n)
    else if inWaiting n then
      match tryAccept (line n) rt with
      | some j => some (.response j, n)
      | none => commandLoop rt tmo startT clock inWaiting line fuel (n + 1)
    else commandLoop rt tmo startT clock inWaiting line fuel (n + 1)

/-- gui.py line 18. -/
def SYSINIT_TIMEOUT : ℚ := 25

/-- gui.py line 19. -/
def MEASURE_TIMEOUT : ℚ := 120

/-- The two command types the GUI sends. -/
inductive CommandType where
  | sys_init : CommandType
  | measure : CommandType
deriving DecidableEq

/-- Response type string passed to `command` at each call site
(gui.py lines 225 and 262). -/
def responseTypeFor : CommandType → String
  | .sys_init => "sys_init"
  | .measure => "measure"

/-- Timeout ceiling passed to `command` at each call site
(gui.py lines 225 and 262). -/
def timeoutFor : CommandType → ℚ
  | .sys_init => SYSINIT_TIMEOUT
  | .measure => MEASURE_TIMEOUT

lemma commandLoop_timeout_late (rt : String) (tmo startT : ℚ) (clock : ℕ → ℚ)
    (iw : ℕ → Bool) (line : ℕ → Option Json) :
    ∀ fuel n m, commandLoop rt tmo startT clock iw line fuel n = some (.timeout, m) →
      clock m - startT > tmo := by
  intro fuel
  induction fuel with
  | zero => intro n m h; simp [commandLoop] at h
  | succ k ih =>
    intro n m h
    rw [commandLoop] at h
    split at h
    · rename_i hc
      cases h
      exact hc
    · split at h
      · split at h
        · cases h
        · exact ih _ _ h
      · exact ih _ _ h

lemma commandLoop_response_accepted (rt : String) (tmo startT : ℚ) (clock : ℕ → ℚ)
    (iw : ℕ → Bool) (line : ℕ → Option Json) :
    ∀ fuel n j m, commandLoop rt tmo startT clock iw line fuel n = some (.response j, m) →
      tryAccept (line m) rt = some j := by
  intro fuel
  induction fuel with
  | zero => intro n j m h; simp [commandLoop] at h
  | succ k ih =>
    intro n j m h
    rw [commandLoop] at h
    split at h
    · cases h
    · split at h
      · split at h
        · rename_i hacc
          cases h
          exact hacc
        · exact ih _ _ _ h
      · exact ih _ _ _ h

lemma commandLoop_terminates (rt : String) (tmo startT : ℚ) (clock : ℕ → ℚ)
    (iw : ℕ → Bool) (line : ℕ → Option Json) :
    ∀ k fuel n, k < fuel → clock (n + k) - startT > tmo →
      ∃ r, commandLoop rt tmo startT clock iw line fuel n = some r := by
  intro k
  induction k with
  | zero =>
    intro fuel n hfuel hc
    match fuel, hfuel with
    | f + 1, _ =>
      rw [commandLoop]
      simp only [Nat.add_zero] at hc
      simp [hc]
  | succ k ih =>
    intro fuel n hfuel hc
    match fuel, hfuel with
    | f + 1, hfuel =>
      rw [commandLoop]
      split
      · exact ⟨_, rfl⟩
      · split
        · split
          · exact ⟨_, rfl⟩
          · exact ih f (n + 1) (Nat.lt_of_succ_lt_succ hfuel)
              (by rwa [Nat.add_right_comm n 1 k])
        · exact ih f (n + 1) (Nat.lt_of_succ_lt_succ hfuel)
            (by rwa [Nat.add_right_comm n 1 k])


lemma tryAccept_some (x : Json) (rt : String) :
    tryAccept (some x) rt = if isMatchingObj x rt = true then some x else none := by
  cases x with
  | obj kvs =>
    cases hl : kvs.lookup "response_type" with
    | none => simp [tryAccept, getItem, isMatchingObj, hl]
    | some v =>
      cases v with
      | str s =>
        by_cases hs : s = rt
        · simp [tryAccept, getItem, isMatchingObj, hl, hs]
        · simp [tryAccept, getItem, isMatchingObj, hl, hs]
      | null => simp [tryAccept, getItem, isMatchingObj, hl]
      | bool b => simp [tryAccept, getItem, isMatchingObj, hl]
      | num q => simp [tryAccept, getItem, isMatchingObj, hl]
      | arr xs => simp [tryAccept, getItem, isMatchingObj, hl]
      | obj kvs2 => simp [tryAccept, getItem, isMatchingObj, hl]
  | null => simp [tryAccept, getItem, isMatchingObj]
  | bool b => simp [tryAccept, getItem, isMatchingObj]
  | num q => simp [tryAccept, getItem, isMatchingObj]
  | str s => simp [tryAccept, getItem, isMatchingObj]
  | arr xs => simp [tryAccept, getItem, isMatchingObj]

lemma tryAccept_iff (l : Option Json) (rt : String) (j : Json) :
    tryAccept l rt = some j ↔ l = some j ∧ isMatchingObj j rt = true := by
  cases l with
  | none => simp [tryAccept]
  | some x =>
    rw [tryAccept_some]
    by_cases hm : isMatchingObj x rt = true
    · rw [if_pos hm]
      simp only [Option.some.injEq]
      constructor
      · rintro rfl; exact ⟨rfl, hm⟩
      · rintro ⟨rfl, _⟩; rfl
    · rw [if_neg hm]
      simp only [Option.some.injEq]
      constructor
      · intro h; cases h
      · rintro ⟨rfl, h2⟩; exact absurd h2 hm

/-- C1: a received line is returned as the response iff it parses as a JSON
object whose `response_type` field equals the command's declared response
type; other lines are skipped (the loop keeps polling past them), and a
returned response always comes from an accepted matching line, so a
mismatched response is never returned. -/
theorem c1_accept_iff_matching :
    (∀ (l : Option Json) (rt : String) (j : Json),
      tryAccept l rt = some j ↔ l = some j ∧ isMatchingObj j rt = true) ∧
    (∀ (rt : String) (tmo startT : ℚ) (clock : ℕ → ℚ) (iw : ℕ → Bool)
        (line : ℕ → Option Json) (fuel n : ℕ) (j : Json) (m : ℕ),
      commandLoop rt tmo startT clock iw line fuel n = some (.response j, m) →
        line m = some j ∧ isMatchingObj j rt = true) ∧
    (∀ (rt : String) (tmo startT : ℚ) (clock : ℕ → ℚ) (iw : ℕ → Bool)
        (line : ℕ → Option Json) (fuel n : ℕ),
      tryAccept (line n) rt = none → ¬ clock n - startT > tmo →
        commandLoop rt tmo startT clock iw line (fuel + 1) n =
          commandLoop rt tmo startT clock iw line fuel (n + 1)) := by
  refine ⟨tryAccept_iff, ?_, ?_⟩
  · intro rt tmo startT clock iw line fuel n j m h
    have hacc := commandLoop_response_accepted rt tmo startT clock iw line fuel n j m h
    exact (tryAccept_iff (line m) rt j).mp hacc
  · intro rt tmo startT clock iw line fuel n hskip hc
    rw [commandLoop, if_neg hc]
    cases hiw : iw n with
    | true => simp [hiw, hskip]
    | false => simp [hiw]

/-- Responses used as concrete test lines in witnesses. -/
def goodSysInitResp : Json := Json.obj [("response_type", Json.str "sys_init")]

/-- A line whose `response_type` mismatches an outstanding `sys_init` request. -/
def mismatchedResp : Json := Json.obj [("response_type", Json.str "measure")]

/-- Line stream that first delivers a mismatched line and then a matching one. -/
def witnessLines : ℕ → Option Json :=
  fun k => if k = 0 then some mismatchedResp else some goodSysInitResp

/-- Witness for C1 at concrete inputs: a matching line is accepted; a
concrete loop run over `witnessLines` returns the matching response read at
iteration 1, skipping the mismatched line at iteration 0. -/
theorem c1_witness :
    (tryAccept (some goodSysInitResp) "sys_init" = some goodSysInitResp ∧
      isMatchingObj goodSysInitResp "sys_init" = true) ∧
    (witnessLines 1 = some goodSysInitResp ∧
      isMatchingObj goodSysInitResp "sys_init" = true) ∧
    commandLoop "sys_init" 25 0 (fun _ => 0) (fun _ => true) witnessLines 2 0 =
      commandLoop "sys_init" 25 0 (fun _ => 0) (fun _ => true) witnessLines 1 1 := by
  refine ⟨⟨(c1_accept_iff_matching.1 _ _ _).mpr ⟨rfl, rfl⟩, rfl⟩, ?_, ?_⟩
  · refine c1_accept_iff_matching.2.1 "sys_init" 25 0 (fun _ => 0) (fun _ => true)
      witnessLines 2 0 goodSysInitResp 1 ?_
    norm_num [commandLoop, witnessLines, tryAccept, getItem, goodSysInitResp, mismatchedResp]
    rw [if_neg (show ¬("measure" = "sys_init") by decide)]
  · refine c1_accept_iff_matching.2.2 "sys_init" 25 0 (fun _ => 0) (fun _ => true)
      witnessLines 1 0 ?_ (by norm_num)
    simp [witnessLines, tryAccept, getItem, mismatchedResp]

/-- C2: against a connection that never yields a valid matching line, the
command exchange run with the per-command-type ceiling (`SYSINIT_TIMEOUT`
for `sys_init`, `MEASURE_TIMEOUT` for `measure`) can only return the
Timeout result — never a response, never an exception — and only at an
iteration whose elapsed wall-clock time strictly exceeds the ceiling, so
never before the ceiling; moreover once the clock exceeds the ceiling
(within the modelled iteration bound) the loop does return. -/
theorem c2_timeout_bounds (ct : CommandType) (clock : ℕ → ℚ) (iw : ℕ → Bool)
    (line : ℕ → Option Json) (startT : ℚ) (fuel n : ℕ)
    (hnever : ∀ m, tryAccept (line m) (responseTypeFor ct) = none) :
    (∀ r, commandLoop (responseTypeFor ct) (timeoutFor ct) startT clock iw line fuel n =
        some r → r.1 = CmdResult.timeout ∧ clock r.2 - startT > timeoutFor ct) ∧
    (∀ k, k < fuel → clock (n + k) - startT > timeoutFor ct →
      ∃ r, commandLoop (responseTypeFor ct) (timeoutFor ct) startT clock iw line fuel n =
        some r) := by
  constructor
  · rintro ⟨res, m⟩ h
    cases res with
    | timeout =>
      exact ⟨rfl, commandLoop_timeout_late _ _ _ _ _ _ fuel n m h⟩
    | response j =>
      have hacc := commandLoop_response_accepted _ _ _ _ _ _ fuel n j m h
      rw [hnever m] at hacc
      cases hacc
  · intro k hk hc
    exact commandLoop_terminates _ _ _ _ _ _ k fuel n hk hc

/-- Witness for C2: with a clock advancing 26 time units per poll and no
input ever waiting, the `sys_init` exchange returns Timeout at iteration 1,
whose elapsed time 26 strictly exceeds the 25-second ceiling. -/
theorem c2_witness :
    ((CmdResult.timeout, 1) : CmdResult × ℕ).1 = CmdResult.timeout ∧
      (fun n : ℕ => (26 * n : ℚ)) 1 - 0 > timeoutFor CommandType.sys_init := by
  have h := c2_timeout_bounds CommandType.sys_init (fun n : ℕ => (26 * n : ℚ))
    (fun _ => false) (fun _ => none) 0 2 0 (fun _ => rfl)
  refine h.1 (CmdResult.timeout, 1) ?_
  norm_num [commandLoop, responseTypeFor, timeoutFor, SYSINIT_TIMEOUT]

/-- Decimal rendering of a JSON number by `json.dumps`: exact for integers;
for non-integral values the precise float decimal form is abstracted by the
rational's canonical rendering (no theorem below depends on it). -/
def numRepr (q : ℚ) : String :=
  if q.den = 1 then toString q.num else toString q

mutual

/-- The `json.dumps` serializer with its default separators: a single-line
rendering with `", "` between items and `": "` between a key and its value,
and no trailing newline.  String escaping is elided (no string serialized
by this program contains characters needing escapes). -/
def dumps : Json → String
  | .null => "null"
  | .bool b => cond b "true" "false"
  | .num q => numRepr q
  | .str s => "\"" ++ s ++ "\""
  | .arr xs => "[" ++ dumpsElems xs ++ "]"
  | .obj kvs => "\x7b" ++ dumpsFields kvs ++ "\x7d"

/-- Comma-separated serialization of array elements. -/
def dumpsElems : List Json → String
  | [] => ""
  | [x] => dumps x
  | x :: y :: rest => dumps x ++ ", " ++ dumpsElems (y :: rest)

/-- Comma-separated serialization of object fields. -/
def dumpsFields : List (String × Json) → String
  | [] => ""
  | [(k, v)] => "\"" ++ k ++ "\": " ++ dumps v
  | (k, v) :: kv :: rest => "\"" ++ k ++ "\": " ++ dumps v ++ ", " ++ dumpsFields (kv :: rest)

end

/-- One row of collected data as used by `visualize`: the five numeric
columns of the measurement DataFrame. -/
structure MRecord where
  throttle : ℚ
  rpm : ℚ
  voltage : ℚ
  current : ℚ
  thrust : ℚ
deriving DecidableEq

/-- Result values of pandas elementwise float division: a finite value, a
signed infinity, or NaN. -/
inductive PFloat where
  | finite (q : ℚ) : PFloat
  | inf : PFloat
  | ninf : PFloat
  | nan : PFloat
deriving DecidableEq

/-- Pandas/NumPy elementwise division `a / b`: ordinary division for a
nonzero divisor; for division by zero it yields the IEEE sentinel
(`inf`/`-inf`/`nan`) instead of raising. -/
def pdiv (a b : ℚ) : PFloat :=
  if b ≠ 0 then .finite (a / b)
  else if a > 0 then .inf
  else if a < 0 then .ninf
  else .nan

/-- A row of `calculated_data` after gui.py lines 87-88: the original
columns plus the derived `power` and `efficiency` columns. -/
structure DRecord extends MRecord where
  power : ℚ
  efficiency : PFloat
deriving DecidableEq

/-- The derivation step of `visualize` (gui.py lines 87-88) on one record:
`power = voltage * current` and `efficiency = thrust / power`, the division
performed elementwise by pandas. -/
def derive (r : MRecord) : DRecord :=
  { r with
    power := r.voltage * r.current,
    efficiency := pdiv r.thrust (r.voltage * r.current) }

/-- The two fields of `measure_param` (gui.py lines 271-274). -/
structure MeasureParam where
  session_name : Option String
  output_scale : Option ℚ
deriving DecidableEq

/-- Rendering of an optional session value inside the chart title f-string:
Python renders `None` as the text `None`. -/
def pyShowOptStr : Option String → String
  | some s => s
  | none => "None"

/-- The chart produced by one `visualize` call: the derived series that get
plotted and the title built from `measure_param` (gui.py lines 90-122). -/
structure VisOutput where
  series : List DRecord
  title : String
deriving DecidableEq

/-- The `visualize` function (gui.py lines 85-129).  It copies the incoming
DataFrame (`calculated_data = data.copy()`), adds the derived columns to
the copy only, renders the chart, and leaves the caller's `data` object
unmutated; the pair returned is (the caller's `data` after the call, the
chart output). -/
def visualize (data : List MRecord) (measure_param : MeasureParam) :
    List MRecord × VisOutput :=
  let calculated_data := data.map derive
  (data,
   { series := calculated_data,
     title := "Motor System Performance Analysis - " ++ "\x27" ++
       pyShowOptStr measure_param.session_name ++ "\x27" })

/-- A command dict built by the event loop: `{'command_type': 'sys_init'}`
(gui.py lines 222-224) or `{'command_type': 'measure', 'steps': …,
'throttle_scale': …}` (gui.py lines 257-261). -/
inductive Command where
  | sys_init : Command
  | measure (steps : Json) (throttle_scale : Json) : Command

/-- The JSON value of a command dict, fields in insertion order. -/
def cmdJson : Command → Json
  | .sys_init => .obj [("command_type", .str "sys_init")]
  | .measure st sc =>
    .obj [("command_type", .str "measure"), ("steps", st), ("throttle_scale", sc)]

/-- The greeting text written on connect (gui.py line 167). -/
def greeting : String := "Hello! First time meeting you! I\x27m UAV\x27s Teststand2 Buddy!"

/-- Enabled/disabled state of each interactive widget of the window; a
disabled widget produces no events. -/
structure Flags where
  portEnabled : Bool
  connectEnabled : Bool
  lockEnabled : Bool
  sysInitEnabled : Bool
  measureEnabled : Bool
  visualizeEnabled : Bool
  saveEnabled : Bool
deriving DecidableEq

/-- The `window_state` dict (gui.py lines 143-149); every field starts as
`None`. -/
structure WindowState where
  port : Option String
  name : Option String
  resolution : Option Json
  outputScale : Option ℚ
  folder : Option String

/-- Whole state of the event loop: widget flags, `window_state`, and the
globals `data` and `measure_param` (gui.py lines 150-151), plus whether the
loop has exited via save or terminate. -/
structure GuiState where
  flags : Flags
  ws : WindowState
  data : Option (List MRecord)
  measure_param : Option MeasureParam
  done : Bool

/-- The `values` read from the window when the Lock button fires: the name
input, the resolution combo value (an arbitrary JSON-like value, since the
combo box is editable), the output-scale slider value, and the folder
input. -/
structure LockValues where
  name : Option String
  resolution : Option Json
  outputScale : ℚ
  folder : Option String

/-- One turn of the event loop.  Environment outcomes ride on the event:
whether the operator confirmed a warning popup, whether opening/writing the
serial port succeeded, the value returned by `command` (None = timeout),
and whether `os.path.exists` accepted the folder. -/
inductive Event where
  | port (p : String) : Event
  | connect (openOk : Bool) : Event
  | lock (vals : LockValues) (pathExists : Bool) : Event
  | sysInit (confirmed : Bool) (openOk : Bool) (result : Option Json) : Event
  | measure (confirmed : Bool) (openOk : Bool) (result : Option Json) : Event
  | visualize : Event
  | saveExit : Event
  | terminate (confirmed : Bool) : Event

/-- Observable outcome of one event-loop turn: the new state, the byte
strings written to the serial transport, and the blocking `popup_ok`
acknowledgments shown. -/
structure StepOut where
  state : GuiState
  writes : List String
  popups : List String

/-- Handler for a `-PORT-` selection (gui.py lines 159-160). -/
def stepPort (s : GuiState) (p : String) : Except PyErr StepOut :=
  if s.flags.portEnabled then .ok ⟨{ s with ws := { s.ws with port := some p } }, [], []⟩
  else .ok ⟨s, [], []⟩

/-- Handler for `-CONNECT-` (gui.py lines 164-179): requires a selected
port; on transport failure reports and changes nothing; on success writes
the greeting, disables Connect and the port combo, and enables Lock. -/
def stepConnect (s : GuiState) (openOk : Bool) : Except PyErr StepOut :=
  if s.flags.connectEnabled then
    match s.ws.port with
    | none => .ok ⟨s, [], []⟩
    | some p =>
      if openOk then
        .ok ⟨{ s with flags := { s.flags with
                connectEnabled := false, portEnabled := false, lockEnabled := true } },
             [greeting], ["Serial Connection " ++ p ++ " OK!"]⟩
      else .ok ⟨s, [], ["Connecting To " ++ p ++ " Failed."]⟩
  else .ok ⟨s, [], []⟩

/-- Validation performed by the `-LOCK-` handler's asserts (gui.py lines
189-192): name present and nonempty, resolution present, folder present
and existing.  The output scale and the membership of the resolution in
the set 10/20 are not checked. -/
def lockValid (v : LockValues) (pathExists : Bool) : Bool :=
  v.name.isSome && !(v.name == some "") && v.resolution.isSome &&
    (v.folder.isSome && pathExists)

/-- Handler for `-LOCK-` (gui.py lines 183-206): stores the submitted
values into `window_state` before validating (so they are stored even on a
failed lock), reports on failure, and on success disables the session-info
widgets and enables Sys Init. -/
def stepLock (s : GuiState) (v : LockValues) (pathExists : Bool) : Except PyErr StepOut :=
  if s.flags.lockEnabled then
    let ws' : WindowState := { s.ws with
      name := v.name,
      resolution := v.resolution,
      outputScale := some v.outputScale,
      folder := v.folder }
    if lockValid v pathExists then
      .ok ⟨{ s with ws := ws', flags := { s.flags with
              lockEnabled := false, sysInitEnabled := true } },
           [], ["Session Information Locked!"]⟩
    else .ok ⟨{ s with ws := ws' }, [], ["Failed to Lock the Session Information!"]⟩
  else .ok ⟨s, [], []⟩

/-- Handler for `-SYS INIT-` (gui.py lines 210-241): safety confirmation,
then the `sys_init` command; timeout and `ok:false` report and change
nothing; `ok:true` disables Sys Init and enables Measure; a response
without an `ok` field raises an uncaught KeyError. -/
def stepSysInit (s : GuiState) (conf openOk : Bool) (result : Option Json) :
    Except PyErr StepOut :=
  if s.flags.sysInitEnabled then
    if conf then
      if openOk then
        let w := [dumps (cmdJson .sys_init)]
        match result with
        | none => .ok ⟨s, w, ["System Initialization Timeout!"]⟩
        | some j =>
          match getItem j "ok" with
          | .error e => .error e
          | .ok v =>
            if pyEqTrue v then
              .ok ⟨{ s with flags := { s.flags with
                      sysInitEnabled := false, measureEnabled := true } },
                   w, ["System Initialized!"]⟩
            else .ok ⟨s, w, ["System Initialization Failed!"]⟩
      else .error .serialError
    else .ok ⟨s, [], []⟩
  else .ok ⟨s, [], []⟩

/-- Conversion of one element of `result['data']` to a DataFrame row with
the five numeric columns `visualize` plots. -/
def toRecord (j : Json) : Option MRecord :=
  match j with
  | .obj kvs =>
    match kvs.lookup "throttle", kvs.lookup "rpm", kvs.lookup "voltage",
        kvs.lookup "current", kvs.lookup "thrust" with
    | some (.num t), some (.num r), some (.num v), some (.num c), some (.num th) =>
      some ⟨t, r, v, c, th⟩
    | _, _, _, _, _ => none
  | _ => none

/-- Conversion of `result['data']` to the DataFrame the handler stores and
immediately visualizes.  A value that is not a nonempty list of rows with
the five numeric columns makes the handler raise (pandas column access in
`visualize` fails on it), modelled as `none`. -/
def toDF (d : Json) : Option (List MRecord) :=
  match d with
  | .arr (x :: xs) => (x :: xs).mapM toRecord
  | _ => none

/-- JSON value `json.dumps` gives an optional number (`None` becomes
`null`). -/
def optNum : Option ℚ → Json
  | some q => .num q
  | none => .null

/-- Handler for `-MEASURE-` (gui.py lines 245-288): safety confirmation,
then the `measure` command built from the locked resolution and scale;
timeout reports and changes nothing; `ok:true` stores `data` and
`measure_param`, visualizes, disables Measure and enables Visualize and
Save; `ok:false` reports and disables Measure (the lockout); a response
without `ok` (or a successful one whose `data` is unusable) raises. -/
def stepMeasure (s : GuiState) (conf openOk : Bool) (result : Option Json) :
    Except PyErr StepOut :=
  if s.flags.measureEnabled then
    if conf then
      if openOk then
        let w := [dumps (cmdJson (.measure (s.ws.resolution.getD .null)
          (optNum s.ws.outputScale)))]
        match result with
        | none => .ok ⟨s, w, ["Measurement Timeout!"]⟩
        | some j =>
          match getItem j "ok" with
          | .error e => .error e
          | .ok v =>
            if pyEqTrue v then
              match getItem j "data" with
              | .error e => .error e
              | .ok d =>
                match toDF d with
                | none => .error .typeError
                | some df =>
                  let mp : MeasureParam := ⟨s.ws.name, s.ws.outputScale⟩
                  .ok ⟨{ s with
                          data := some df,
                          measure_param := some mp,
                          flags := { s.flags with
                            measureEnabled := false,
                            visualizeEnabled := true,
                            saveEnabled := true } },
                       w, ["The Measurement Was Completed Flawlessly :D"]⟩
            else
              .ok ⟨{ s with flags := { s.flags with measureEnabled := false } },
                   w, ["Measurement Failed!"]⟩
      else .error .serialError
    else .ok ⟨s, [], []⟩
  else .ok ⟨s, [], []⟩

/-- Handler for `-VISUALIZE-` (gui.py lines 292-293): re-renders the stored
data; `visualize` copies the DataFrame, so the stored `data` is bound to
the unchanged object the call returns. -/
def stepVisualize (s : GuiState) : Except PyErr StepOut :=
  if s.flags.visualizeEnabled then
    match s.data, s.measure_param with
    | some df, some mp => .ok ⟨{ s with data := some (visualize df mp).1 }, [], []⟩
    | _, _ => .error .typeError
  else .ok ⟨s, [], []⟩

/-- Handler for `-SAVE N EXIT-` (gui.py lines 297-304): persists and leaves
the loop (file writes are outside the embedding). -/
def stepSave (s : GuiState) : Except PyErr StepOut :=
  if s.flags.saveEnabled then .ok ⟨{ s with done := true }, [], []⟩
  else .ok ⟨s, [], []⟩

/-- Handler for `-TERMINATE-` (gui.py lines 308-320): leaves the loop when
the operator confirms. -/
def stepTerminate (s : GuiState) (conf : Bool) : Except PyErr StepOut :=
  if conf then .ok ⟨{ s with done := true }, [], []⟩
  else .ok ⟨s, [], []⟩

/-- One turn of the event loop (gui.py lines 154-320).  A disabled widget
emits no event in PySimpleGUI, which the model expresses by making its
handler a no-op when its flag is off; after the loop has exited every
event is a no-op. -/
def step (s : GuiState) (e : Event) : Except PyErr StepOut :=
  if s.done then .ok ⟨s, [], []⟩
  else
    match e with
    | .port p => stepPort s p
    | .connect oo => stepConnect s oo
    | .lock v pe => stepLock s v pe
    | .sysInit c oo r => stepSysInit s c oo r
    | .measure c oo r => stepMeasure s c oo r
    | .visualize => stepVisualize s
    | .saveExit => stepSave s
    | .terminate c => stepTerminate s c

/-- The window right after `make_window` (gui.py lines 31-62, 142-151):
only the port combo, Connect, and Terminate are live; `window_state`,
`data` and `measure_param` all start as `None`. -/
def initState : GuiState :=
  { flags := { portEnabled := true, connectEnabled := true, lockEnabled := false,
               sysInitEnabled := false, measureEnabled := false,
               visualizeEnabled := false, saveEnabled := false },
    ws := { port := none, name := none, resolution := none, outputScale := none,
            folder := none },
    data := none, measure_param := none, done := false }

/-- States the event loop can actually be in: the initial window plus
anything produced by non-crashing turns. -/
inductive Reachable : GuiState → Prop
  | init : Reachable initState
  | next (s : GuiState) (e : Event) (o : StepOut) :
      Reachable s → step s e = .ok o → Reachable o.state


/-- Every non-crashing event-loop turn either leaves the widget flags and
the measurement globals unchanged, or is one of the four advancing
transitions (connect success, lock success, init success, measure success)
or the measurement-failure lockout. -/
lemma step_cases (s : GuiState) (e : Event) (o : StepOut) (h : step s e = .ok o) :
    (o.state.flags = s.flags ∧ o.state.data = s.data ∧
      o.state.measure_param = s.measure_param) ∨
    (s.flags.connectEnabled = true ∧
      o.state.flags = { s.flags with
        connectEnabled := false, portEnabled := false, lockEnabled := true } ∧
      o.state.data = s.data ∧ o.state.measure_param = s.measure_param) ∨
    (s.flags.lockEnabled = true ∧
      o.state.flags = { s.flags with lockEnabled := false, sysInitEnabled := true } ∧
      o.state.data = s.data ∧ o.state.measure_param = s.measure_param) ∨
    (s.flags.sysInitEnabled = true ∧
      o.state.flags = { s.flags with sysInitEnabled := false, measureEnabled := true } ∧
      o.state.data = s.data ∧ o.state.measure_param = s.measure_param) ∨
    (s.flags.measureEnabled = true ∧
      o.state.flags = { s.flags with
        measureEnabled := false, visualizeEnabled := true, saveEnabled := true } ∧
      o.state.data.isSome = true ∧ o.state.measure_param.isSome = true) ∨
    (s.flags.measureEnabled = true ∧
      o.state.flags = { s.flags with measureEnabled := false } ∧
      o.state.data = s.data ∧ o.state.measure_param = s.measure_param) := by
  cases e with
  | port p =>
    simp only [step] at h
    split at h
    · cases h; exact Or.inl ⟨rfl, rfl, rfl⟩
    · unfold stepPort at h
      split at h <;> cases h <;> exact Or.inl ⟨rfl, rfl, rfl⟩
  | connect oo =>
    simp only [step] at h
    split at h
    · cases h; exact Or.inl ⟨rfl, rfl, rfl⟩
    · unfold stepConnect at h
      split at h
      · next hc =>
        split at h
        · cases h; exact Or.inl ⟨rfl, rfl, rfl⟩
        · split at h <;> cases h
          · exact Or.inr (Or.inl ⟨hc, rfl, rfl, rfl⟩)
          · exact Or.inl ⟨rfl, rfl, rfl⟩
      · cases h; exact Or.inl ⟨rfl, rfl, rfl⟩
  | lock v pe =>
    simp only [step] at h
    split at h
    · cases h; exact Or.inl ⟨rfl, rfl, rfl⟩
    · unfold stepLock at h
      split at h
      · next hl =>
        split at h <;> cases h
        · exact Or.inr (Or.inr (Or.inl ⟨hl, rfl, rfl, rfl⟩))
        · exact Or.inl ⟨rfl, rfl, rfl⟩
      · cases h; exact Or.inl ⟨rfl, rfl, rfl⟩
  | sysInit c oo r =>
    simp only [step] at h
    split at h
    · cases h; exact Or.inl ⟨rfl, rfl, rfl⟩
    · unfold stepSysInit at h
      split at h
      · next hsi =>
        split at h
        · split at h
          · split at h
            · cases h; exact Or.inl ⟨rfl, rfl, rfl⟩
            · split at h
              · cases h
              · split at h <;> cases h
                · exact Or.inr (Or.inr (Or.inr (Or.inl ⟨hsi, rfl, rfl, rfl⟩)))
                · exact Or.inl ⟨rfl, rfl, rfl⟩
          · cases h
        · cases h; exact Or.inl ⟨rfl, rfl, rfl⟩
      · cases h; exact Or.inl ⟨rfl, rfl, rfl⟩
  | measure c oo r =>
    simp only [step] at h
    split at h
    · cases h; exact Or.inl ⟨rfl, rfl, rfl⟩
    · unfold stepMeasure at h
      split at h
      · next hm =>
        split at h
        · split at h
          · split at h
            · cases h; exact Or.inl ⟨rfl, rfl, rfl⟩
            · split at h
              · cases h
              · split at h
                · split at h
                  · cases h
                  · split at h
                    · cases h
                    · cases h
                      exact Or.inr (Or.inr (Or.inr (Or.inr (Or.inl
                        ⟨hm, rfl, rfl, rfl⟩))))
                · cases h
                  exact Or.inr (Or.inr (Or.inr (Or.inr (Or.inr
                    ⟨hm, rfl, rfl, rfl⟩))))
          · cases h
        · cases h; exact Or.inl ⟨rfl, rfl, rfl⟩
      · cases h; exact Or.inl ⟨rfl, rfl, rfl⟩
  | visualize =>
    simp only [step] at h
    split at h
    · cases h; exact Or.inl ⟨rfl, rfl, rfl⟩
    · unfold stepVisualize at h
      split at h
      · split at h
        · next df mp hdf hmp =>
          cases h
          refine Or.inl ⟨rfl, ?_, rfl⟩
          rw [hdf]
          rfl
        · cases h
      · cases h; exact Or.inl ⟨rfl, rfl, rfl⟩
  | saveExit =>
    simp only [step] at h
    split at h
    · cases h; exact Or.inl ⟨rfl, rfl, rfl⟩
    · unfold stepSave at h
      split at h <;> cases h <;> exact Or.inl ⟨rfl, rfl, rfl⟩
  | terminate c =>
    simp only [step] at h
    split at h
    · cases h; exact Or.inl ⟨rfl, rfl, rfl⟩
    · unfold stepTerminate at h
      split at h <;> cases h <;> exact Or.inl ⟨rfl, rfl, rfl⟩

/-- Flag layout the loop maintains: a later-phase button is enabled only
after every earlier-phase button has been disabled for good. -/
def PhaseInv (s : GuiState) : Prop :=
  (s.flags.lockEnabled = true → s.flags.connectEnabled = false) ∧
  (s.flags.sysInitEnabled = true →
    s.flags.connectEnabled = false ∧ s.flags.lockEnabled = false) ∧
  (s.flags.measureEnabled = true →
    s.flags.connectEnabled = false ∧ s.flags.lockEnabled = false ∧
      s.flags.sysInitEnabled = false)

lemma phaseInv_init : PhaseInv initState := by
  exact ⟨fun h => Bool.noConfusion h, fun h => Bool.noConfusion h,
    fun h => Bool.noConfusion h⟩

lemma phaseInv_step (s : GuiState) (e : Event) (o : StepOut) (hInv : PhaseInv s)
    (h : step s e = .ok o) : PhaseInv o.state := by
  rcases step_cases s e o h with
    ⟨hf, -, -⟩ | ⟨hc, hf, -, -⟩ | ⟨hl, hf, -, -⟩ | ⟨hsi, hf, -, -⟩ | ⟨hm, hf, -, -⟩ |
    ⟨hm, hf, -, -⟩
  · unfold PhaseInv at hInv ⊢
    rw [hf]
    exact hInv
  · unfold PhaseInv at hInv ⊢
    rw [hf]
    refine ⟨fun _ => rfl, fun hsy => absurd hc ?_, fun hme => absurd hc ?_⟩
    · simp [(hInv.2.1 hsy).1]
    · simp [(hInv.2.2 hme).1]
  · unfold PhaseInv at hInv ⊢
    rw [hf]
    refine ⟨fun hx => Bool.noConfusion hx, fun _ => ⟨hInv.1 hl, rfl⟩,
      fun hme => absurd hl ?_⟩
    simp [(hInv.2.2 hme).2.1]
  · obtain ⟨hcf, hlf⟩ := hInv.2.1 hsi
    unfold PhaseInv
    rw [hf]
    exact ⟨fun _ => hcf, fun hx => Bool.noConfusion hx, fun _ => ⟨hcf, hlf, rfl⟩⟩
  · unfold PhaseInv at hInv ⊢
    rw [hf]
    exact ⟨fun hx => hInv.1 hx, fun hx => hInv.2.1 hx, fun hx => Bool.noConfusion hx⟩
  · unfold PhaseInv at hInv ⊢
    rw [hf]
    exact ⟨fun hx => hInv.1 hx, fun hx => hInv.2.1 hx, fun hx => Bool.noConfusion hx⟩

lemma phaseInv_reachable (s : GuiState) (h : Reachable s) : PhaseInv s := by
  induction h with
  | init => exact phaseInv_init
  | next s e o hr hstep ih => exact phaseInv_step s e o ih hstep

/-- All four command-issuing buttons are disabled for good: once this holds
no event can re-enable any of them. -/
def ActionsLocked (s : GuiState) : Prop :=
  s.flags.connectEnabled = false ∧ s.flags.lockEnabled = false ∧
  s.flags.sysInitEnabled = false ∧ s.flags.measureEnabled = false

lemma actionsLocked_step (s : GuiState) (e : Event) (o : StepOut)
    (hal : ActionsLocked s) (h : step s e = .ok o) : ActionsLocked o.state := by
  rcases step_cases s e o h with
    ⟨hf, -, -⟩ | ⟨hc, hf, -, -⟩ | ⟨hl, hf, -, -⟩ | ⟨hsi, hf, -, -⟩ | ⟨hm, hf, -, -⟩ |
    ⟨hm, hf, -, -⟩
  · unfold ActionsLocked at hal ⊢
    rw [hf]
    exact hal
  · exact absurd hc (by simp [hal.1])
  · exact absurd hl (by simp [hal.2.1])
  · exact absurd hsi (by simp [hal.2.2.1])
  · exact absurd hm (by simp [hal.2.2.2])
  · exact absurd hm (by simp [hal.2.2.2])

/-- C3: a measurement response with `ok:false` disables the Measure button
and (since Connect, Lock and Sys Init are already disabled in any state
where Measure is enabled) locks all command-issuing actions permanently:
the lockout persists through every later turn, and a later measurement
attempt is a no-op that writes nothing to the serial port.  By contrast a
measurement timeout, an initialization timeout, and an initialization
`ok:false` all leave the state (including the corresponding button's
enabled flag) exactly unchanged, so those actions stay re-attemptable. -/
theorem c3_measure_failure_lockout :
    (∀ (s : GuiState) (j v : Json) (o : StepOut), PhaseInv s →
      s.flags.measureEnabled = true → s.done = false →
      getItem j "ok" = .ok v → pyEqTrue v = false →
      step s (.measure true true (some j)) = .ok o → ActionsLocked o.state) ∧
    (∀ (s : GuiState) (e : Event) (o : StepOut), ActionsLocked s →
      step s e = .ok o → ActionsLocked o.state) ∧
    (∀ (s : GuiState) (c oo : Bool) (r : Option Json), ActionsLocked s →
      step s (.measure c oo r) = .ok ⟨s, [], []⟩) ∧
    (∀ s : GuiState, s.done = false → s.flags.measureEnabled = true →
      step s (.measure true true none) =
        .ok ⟨s, [dumps (cmdJson (.measure (s.ws.resolution.getD .null)
              (optNum s.ws.outputScale)))], ["Measurement Timeout!"]⟩) ∧
    (∀ s : GuiState, s.done = false → s.flags.sysInitEnabled = true →
      step s (.sysInit true true none) =
        .ok ⟨s, [dumps (cmdJson .sys_init)], ["System Initialization Timeout!"]⟩) ∧
    (∀ (s : GuiState) (j v : Json), s.done = false → s.flags.sysInitEnabled = true →
      getItem j "ok" = .ok v → pyEqTrue v = false →
      step s (.sysInit true true (some j)) =
        .ok ⟨s, [dumps (cmdJson .sys_init)], ["System Initialization Failed!"]⟩) := by
  refine ⟨?_, ?_, ?_, ?_, ?_, ?_⟩
  · intro s j v o hInv hme hd hok hpy hstep
    have hcalc : step s (.measure true true (some j)) =
        .ok ⟨{ s with flags := { s.flags with measureEnabled := false } },
             [dumps (cmdJson (.measure (s.ws.resolution.getD .null)
               (optNum s.ws.outputScale)))], ["Measurement Failed!"]⟩ := by
      unfold step stepMeasure
      simp [hd, hme, hok, hpy]
    rw [hcalc] at hstep
    cases hstep
    obtain ⟨hcf, hlf, hsf⟩ := hInv.2.2 hme
    exact ⟨hcf, hlf, hsf, rfl⟩
  · exact actionsLocked_step
  · intro s c oo r hal
    unfold step stepMeasure
    by_cases hd : s.done = true
    · simp [hd]
    · simp [hd, hal.2.2.2]
  · intro s hd hme
    unfold step stepMeasure
    simp [hd, hme]
  · intro s hd hsi
    unfold step stepSysInit
    simp [hd, hsi]
  · intro s j v hd hsi hok hpy
    unfold step stepSysInit
    simp [hd, hsi, hok, hpy]

/-- A `window_state` as it stands after a connect and a lock (concrete
values used only by witnesses). -/
def wsLocked : WindowState :=
  { port := some "COM3", name := some "run1", resolution := none,
    outputScale := none, folder := some "/tmp" }

/-- A concrete state in which the system has been initialized: only the
Measure button (and Terminate) is live. -/
def stInited : GuiState :=
  { flags := { portEnabled := false, connectEnabled := false, lockEnabled := false,
               sysInitEnabled := false, measureEnabled := true,
               visualizeEnabled := false, saveEnabled := false },
    ws := wsLocked, data := none, measure_param := none, done := false }

/-- `stInited` after the measurement-failure lockout. -/
def stLockedOut : GuiState :=
  { stInited with flags := { stInited.flags with measureEnabled := false } }

/-- A measurement response carrying `ok:false`. -/
def jBadMeasure : Json :=
  Json.obj [("response_type", Json.str "measure"), ("ok", Json.bool false)]

/-- Witness for C3: from the concrete initialized state, an `ok:false`
measurement response locks all actions; a further measurement attempt in
the locked-out state is a no-op issuing no command; and a measurement
timeout leaves the initialized state unchanged. -/
theorem c3_witness :
    ActionsLocked stLockedOut ∧
    step stLockedOut (.measure true true (some jBadMeasure)) = .ok ⟨stLockedOut, [], []⟩ ∧
    step stInited (.measure true true none) =
      .ok ⟨stInited, [dumps (cmdJson (.measure Json.null Json.null))],
           ["Measurement Timeout!"]⟩ := by
  have h := c3_measure_failure_lockout
  have hcalc : step stInited (.measure true true (some jBadMeasure)) =
      .ok ⟨stLockedOut, [dumps (cmdJson (.measure Json.null Json.null))],
           ["Measurement Failed!"]⟩ := rfl
  have hInv : PhaseInv stInited :=
    ⟨fun hx => Bool.noConfusion hx, fun hx => Bool.noConfusion hx,
     fun _ => ⟨rfl, rfl, rfl⟩⟩
  have hAL := h.1 stInited jBadMeasure (Json.bool false) _ hInv rfl rfl rfl rfl hcalc
  exact ⟨hAL, h.2.2.1 stLockedOut true true (some jBadMeasure) hAL,
    h.2.2.2.1 stInited rfl rfl⟩

/-- SessionConfig validity as the spec words it: non-empty name, resolution
in the set 10/20, output scale within 0.1 to 1.0, existing storage
directory.  Written from the spec for the refinement statement of C4. -/
def specLockValid (v : LockValues) (pathExists : Bool) : Bool :=
  (match v.name with
   | some n => !(n == "")
   | none => false) &&
  (match v.resolution with
   | some (.num q) => q == 10 || q == 20
   | _ => false) &&
  ((1 / 10 : ℚ) ≤ v.outputScale && v.outputScale ≤ 1) &&
  (v.folder.isSome && pathExists)

/-- The `window_state` produced by the assignments at the top of the
`-LOCK-` handler (gui.py lines 185-188). -/
def lockedWS (s : GuiState) (v : LockValues) : WindowState :=
  { s.ws with
    name := v.name,
    resolution := v.resolution,
    outputScale := some v.outputScale,
    folder := v.folder }

/-- A concrete state right after a successful connect: Lock is live. -/
def stConn : GuiState :=
  { initState with
    flags := { initState.flags with
      portEnabled := false,
      connectEnabled := false,
      lockEnabled := true },
    ws := { initState.ws with port := some "COM3" } }

/-- Submitted session values whose resolution is the combo-box text `15`,
not a member of the spec's set of 10/20. -/
def vBadRes : LockValues :=
  { name := some "run1", resolution := some (Json.str "15"), outputScale := 1,
    folder := some "/tmp" }

/-- Submitted session values satisfying every spec invariant. -/
def vGoodLock : LockValues :=
  { name := some "run1", resolution := some (Json.num 10), outputScale := 1,
    folder := some "/tmp" }

/-- Counterexample to C4 as stated: the lock succeeds (the handler's
asserts only check that a resolution value is present, not that it is 10
or 20), on submitted values that violate the spec's SessionConfig
invariants, so "lock succeeds iff all invariants hold" is false on the
code. -/
theorem c4_counterexample :
    lockValid vBadRes true = true ∧
    specLockValid vBadRes true = false ∧
    step stConn (.lock vBadRes true) =
      .ok ⟨{ stConn with
              ws := lockedWS stConn vBadRes,
              flags := { stConn.flags with
                lockEnabled := false, sysInitEnabled := true } }, [],
           ["Session Information Locked!"]⟩ :=
  ⟨rfl, rfl, rfl⟩

/-- C4 amended: the lock action succeeds iff the handler's own validation
holds — name present and non-empty, a resolution value present (whatever it
is), folder present and existing; the output-scale range and the
resolution's membership in 10/20 are constrained only by the input widgets,
not by the lock validation.  On validation failure only the staged
`window_state` values change: flags, data and measure-param — the machine's
phase — stay as they were.  A successful lock disables the Lock button, and
once Connect and Lock are both disabled no event re-enables them, so a lock
can succeed at most once per session. -/
theorem c4_lock_validation :
    (∀ (s : GuiState) (v : LockValues) (pe : Bool), s.done = false →
      s.flags.lockEnabled = true →
      ((∃ o, step s (.lock v pe) = .ok o ∧ o.state.flags.lockEnabled = false) ↔
        lockValid v pe = true)) ∧
    (∀ (s : GuiState) (v : LockValues) (pe : Bool), s.done = false →
      s.flags.lockEnabled = true → lockValid v pe = true →
      step s (.lock v pe) =
        .ok ⟨{ s with
                ws := lockedWS s v,
                flags := { s.flags with
                  lockEnabled := false, sysInitEnabled := true } }, [],
             ["Session Information Locked!"]⟩) ∧
    (∀ (s : GuiState) (v : LockValues) (pe : Bool), s.done = false →
      s.flags.lockEnabled = true → lockValid v pe = false →
      step s (.lock v pe) =
        .ok ⟨{ s with ws := lockedWS s v }, [],
             ["Failed to Lock the Session Information!"]⟩) ∧
    (∀ (s : GuiState) (e : Event) (o : StepOut), s.flags.connectEnabled = false →
      s.flags.lockEnabled = false → step s e = .ok o →
      o.state.flags.connectEnabled = false ∧ o.state.flags.lockEnabled = false) := by
  have hsucc : ∀ (s : GuiState) (v : LockValues) (pe : Bool), s.done = false →
      s.flags.lockEnabled = true → lockValid v pe = true →
      step s (.lock v pe) =
        .ok ⟨{ s with
                ws := lockedWS s v,
                flags := { s.flags with
                  lockEnabled := false, sysInitEnabled := true } }, [],
             ["Session Information Locked!"]⟩ := by
    intro s v pe hd hl hv
    unfold step stepLock
    simp [hd, hl, hv, lockedWS]
  have hfail : ∀ (s : GuiState) (v : LockValues) (pe : Bool), s.done = false →
      s.flags.lockEnabled = true → lockValid v pe = false →
      step s (.lock v pe) =
        .ok ⟨{ s with ws := lockedWS s v }, [],
             ["Failed to Lock the Session Information!"]⟩ := by
    intro s v pe hd hl hv
    unfold step stepLock
    simp [hd, hl, hv, lockedWS]
  refine ⟨?_, hsucc, hfail, ?_⟩
  · intro s v pe hd hl
    constructor
    · rintro ⟨o, ho, hlock⟩
      cases hv : lockValid v pe
      · rw [hfail s v pe hd hl hv] at ho
        cases ho
        simp [hl] at hlock
      · rfl
    · intro hv
      exact ⟨_, hsucc s v pe hd hl hv, rfl⟩
  · intro s e o hcf hlf h
    rcases step_cases s e o h with
      ⟨hf, -, -⟩ | ⟨hc, hf, -, -⟩ | ⟨hl, hf, -, -⟩ | ⟨hsi, hf, -, -⟩ | ⟨hm, hf, -, -⟩ |
      ⟨hm, hf, -, -⟩
    · rw [hf]
      exact ⟨hcf, hlf⟩
    · exact absurd hc (by simp [hcf])
    · exact absurd hl (by simp [hlf])
    · rw [hf]
      exact ⟨hcf, hlf⟩
    · rw [hf]
      exact ⟨hcf, hlf⟩
    · rw [hf]
      exact ⟨hcf, hlf⟩

/-- Witness for C4 at concrete inputs: valid values lock successfully from
the connected state, and the locked state's disabled Connect and Lock
survive a further event. -/
theorem c4_witness :
    step stConn (.lock vGoodLock true) =
      .ok ⟨{ stConn with
              ws := lockedWS stConn vGoodLock,
              flags := { stConn.flags with
                lockEnabled := false, sysInitEnabled := true } }, [],
           ["Session Information Locked!"]⟩ ∧
    lockValid vGoodLock true = true := by
  exact ⟨c4_lock_validation.2.1 stConn vGoodLock true rfl rfl rfl, rfl⟩

/-- A concrete state with session info locked: Sys Init is live. -/
def stReadyInit : GuiState :=
  { flags := { portEnabled := false, connectEnabled := false, lockEnabled := false,
               sysInitEnabled := true, measureEnabled := false,
               visualizeEnabled := false, saveEnabled := false },
    ws := wsLocked, data := none, measure_param := none, done := false }

/-- A response matching the outstanding `sys_init` request but carrying no
`ok` field. -/
def jNoOk : Json := Json.obj [("response_type", Json.str "sys_init")]

/-- A successful measurement response carrying no `data` field. -/
def jMeasNoData : Json :=
  Json.obj [("response_type", Json.str "measure"), ("ok", Json.bool true)]

/-- Counterexample to C5 as stated: a response accepted by the protocol
(matching `response_type`) that lacks the `ok` field makes the `-SYS INIT-`
handler raise an uncaught KeyError (the event loop has no handler, so the
process dies), and likewise a successful measure response lacking `data`;
neither error is reported through a popup. -/
theorem c5_counterexample :
    step stReadyInit (.sysInit true true (some jNoOk)) = .error (.keyError "ok") ∧
    step stInited (.measure true true (some jMeasNoData)) =
      .error (.keyError "data") :=
  ⟨rfl, rfl⟩

/-- C5 amended: for an accepted response that does carry the `ok` field —
and, when it is a successful measure response, a `data` field holding a
usable record table — the handler finishes without raising and reports the
outcome through a blocking `popup_ok`; responses missing those fields
raise an uncaught KeyError instead (see the counterexample). -/
theorem c5_response_handling :
    (∀ (s : GuiState) (j v : Json), s.done = false →
      s.flags.sysInitEnabled = true → getItem j "ok" = .ok v →
      ∃ o, step s (.sysInit true true (some j)) = .ok o ∧ o.popups ≠ []) ∧
    (∀ (s : GuiState) (j v : Json), s.done = false →
      s.flags.measureEnabled = true → getItem j "ok" = .ok v →
      (pyEqTrue v = true → ∃ d df, getItem j "data" = .ok d ∧ toDF d = some df) →
      ∃ o, step s (.measure true true (some j)) = .ok o ∧ o.popups ≠ []) := by
  constructor
  · intro s j v hd hsi hok
    cases hpy : pyEqTrue v with
    | false =>
      refine ⟨⟨s, [dumps (cmdJson .sys_init)], ["System Initialization Failed!"]⟩,
        ?_, by simp⟩
      unfold step stepSysInit
      simp [hd, hsi, hok, hpy]
    | true =>
      refine ⟨⟨{ s with flags := { s.flags with
              sysInitEnabled := false, measureEnabled := true } },
           [dumps (cmdJson .sys_init)], ["System Initialized!"]⟩, ?_, by simp⟩
      unfold step stepSysInit
      simp [hd, hsi, hok, hpy]
  · intro s j v hd hme hok hdata
    cases hpy : pyEqTrue v with
    | false =>
      refine ⟨⟨{ s with flags := { s.flags with measureEnabled := false } },
           [dumps (cmdJson (.measure (s.ws.resolution.getD .null)
             (optNum s.ws.outputScale)))], ["Measurement Failed!"]⟩, ?_, by simp⟩
      unfold step stepMeasure
      simp [hd, hme, hok, hpy]
    | true =>
      obtain ⟨d, df, hgd, hdf⟩ := hdata hpy
      refine ⟨⟨{ s with
              data := some df,
              measure_param := some ⟨s.ws.name, s.ws.outputScale⟩,
              flags := { s.flags with
                measureEnabled := false, visualizeEnabled := true,
                saveEnabled := true } },
           [dumps (cmdJson (.measure (s.ws.resolution.getD .null)
             (optNum s.ws.outputScale)))],
           ["The Measurement Was Completed Flawlessly :D"]⟩, ?_, by simp⟩
      unfold step stepMeasure
      simp [hd, hme, hok, hpy, hgd, hdf]

/-- Witness for C5 amended: a well-shaped `ok:false` initialization
response is processed without an exception. -/
theorem c5_witness :
    (step stReadyInit (.sysInit true true
      (some (Json.obj [("response_type", Json.str "sys_init"),
        ("ok", Json.bool false)])))).toOption.isSome = true := by
  obtain ⟨o, ho, -⟩ := c5_response_handling.1 stReadyInit
    (Json.obj [("response_type", Json.str "sys_init"), ("ok", Json.bool false)])
    (Json.bool false) rfl rfl rfl
  rw [ho]
  rfl

lemma connect_fail_noop (s : GuiState) (o : StepOut)
    (h : step s (.connect false) = .ok o) : o.state = s := by
  simp only [step] at h
  split at h
  · cases h; rfl
  · unfold stepConnect at h
    split at h
    · split at h
      · cases h; rfl
      · split at h
        · next hoo => exact Bool.noConfusion hoo
        · cases h; rfl
    · cases h; rfl

lemma sysInit_timeout_noop (s : GuiState) (c oo : Bool) (o : StepOut)
    (h : step s (.sysInit c oo none) = .ok o) : o.state = s := by
  simp only [step] at h
  split at h
  · cases h; rfl
  · unfold stepSysInit at h
    split at h
    · split at h
      · split at h
        · cases h; rfl
        · cases h
      · cases h; rfl
    · cases h; rfl

lemma sysInit_okfalse_noop (s : GuiState) (j v : Json) (c oo : Bool) (o : StepOut)
    (hok : getItem j "ok" = .ok v) (hpy : pyEqTrue v = false)
    (h : step s (.sysInit c oo (some j)) = .ok o) : o.state = s := by
  simp only [step] at h
  split at h
  · cases h; rfl
  · unfold stepSysInit at h
    split at h
    · split at h
      · split at h
        · split at h
          · next heq => cases heq
          · next v' heq =>
            cases heq
            split at h
            · next e heq2 =>
              rw [hok] at heq2
              cases heq2
            · next v'' heq2 =>
              rw [hok] at heq2
              cases heq2
              split at h
              · next hpt => rw [hpy] at hpt; exact Bool.noConfusion hpt
              · cases h; rfl
        · cases h
      · cases h; rfl
    · cases h; rfl

lemma measure_timeout_noop (s : GuiState) (c oo : Bool) (o : StepOut)
    (h : step s (.measure c oo none) = .ok o) : o.state = s := by
  simp only [step] at h
  split at h
  · cases h; rfl
  · unfold stepMeasure at h
    split at h
    · split at h
      · split at h
        · cases h; rfl
        · cases h
      · cases h; rfl
    · cases h; rfl

lemma measure_okfalse_cases (s : GuiState) (j v : Json) (c oo : Bool) (o : StepOut)
    (hok : getItem j "ok" = .ok v) (hpy : pyEqTrue v = false)
    (h : step s (.measure c oo (some j)) = .ok o) :
    o.state = s ∨
      o.state = { s with flags := { s.flags with measureEnabled := false } } := by
  simp only [step] at h
  split at h
  · cases h; exact Or.inl rfl
  · unfold stepMeasure at h
    split at h
    · split at h
      · split at h
        · split at h
          · next heq => cases heq
          · next v' heq =>
            cases heq
            split at h
            · next e heq2 =>
              rw [hok] at heq2
              cases heq2
            · next v'' heq2 =>
              rw [hok] at heq2
              cases heq2
              split at h
              · next hpt => rw [hpy] at hpt; exact Bool.noConfusion hpt
              · cases h; exact Or.inr rfl
        · cases h
      · cases h; exact Or.inl rfl
    · cases h; exact Or.inl rfl

lemma lock_fail_machine (s : GuiState) (v : LockValues) (pe : Bool) (o : StepOut)
    (hv : lockValid v pe = false) (h : step s (.lock v pe) = .ok o) :
    o.state.flags = s.flags ∧ o.state.data = s.data ∧
      o.state.measure_param = s.measure_param ∧ o.state.done = s.done := by
  simp only [step] at h
  split at h
  · cases h; exact ⟨rfl, rfl, rfl, rfl⟩
  · unfold stepLock at h
    split at h
    · split at h
      · next hlv => rw [hv] at hlv; exact Bool.noConfusion hlv
      · cases h; exact ⟨rfl, rfl, rfl, rfl⟩
    · cases h; exact ⟨rfl, rfl, rfl, rfl⟩

/-- C7: each failure path leaves the machine in its prior state.  A failed
connect, an initialization timeout or `ok:false`, and a measurement timeout
return the state wholly unchanged.  A failed lock changes only the staged
`window_state` input cache: flags, `data`, `measure_param` and the
loop-exit marker — the state-machine content — are all unchanged.  The sole
exception is the measurement `ok:false` path, which at most flips the
single Measure-enabled flag (the one-way lockout) and changes nothing
else. -/
theorem c7_failure_prior_state :
    (∀ (s : GuiState) (o : StepOut), step s (.connect false) = .ok o →
      o.state = s) ∧
    (∀ (s : GuiState) (v : LockValues) (pe : Bool) (o : StepOut),
      lockValid v pe = false → step s (.lock v pe) = .ok o →
      o.state.flags = s.flags ∧ o.state.data = s.data ∧
        o.state.measure_param = s.measure_param ∧ o.state.done = s.done) ∧
    (∀ (s : GuiState) (c oo : Bool) (o : StepOut),
      step s (.sysInit c oo none) = .ok o → o.state = s) ∧
    (∀ (s : GuiState) (j v : Json) (c oo : Bool) (o : StepOut),
      getItem j "ok" = .ok v → pyEqTrue v = false →
      step s (.sysInit c oo (some j)) = .ok o → o.state = s) ∧
    (∀ (s : GuiState) (c oo : Bool) (o : StepOut),
      step s (.measure c oo none) = .ok o → o.state = s) ∧
    (∀ (s : GuiState) (j v : Json) (c oo : Bool) (o : StepOut),
      getItem j "ok" = .ok v → pyEqTrue v = false →
      step s (.measure c oo (some j)) = .ok o →
      o.state = s ∨
        o.state = { s with flags := { s.flags with measureEnabled := false } }) :=
  ⟨connect_fail_noop,
   fun s v pe o hv h => lock_fail_machine s v pe o hv h,
   sysInit_timeout_noop,
   fun s j v c oo o hok hpy h => sysInit_okfalse_noop s j v c oo o hok hpy h,
   measure_timeout_noop,
   fun s j v c oo o hok hpy h => measure_okfalse_cases s j v c oo o hok hpy h⟩

/-- The initial window with a port selected. -/
def stPort : GuiState :=
  { initState with ws := { initState.ws with port := some "COM3" } }

/-- Witness for C7 at concrete inputs: a failed connect from the
port-selected initial state and a measurement timeout from the initialized
state both leave the state exactly as it was. -/
theorem c7_witness :
    (⟨stPort, [], ["Connecting To COM3 Failed."]⟩ : StepOut).state = stPort ∧
    (⟨stInited, [dumps (cmdJson (.measure Json.null Json.null))],
      ["Measurement Timeout!"]⟩ : StepOut).state = stInited := by
  constructor
  · exact c7_failure_prior_state.1 stPort
      ⟨stPort, [], ["Connecting To COM3 Failed."]⟩ rfl
  · exact c7_failure_prior_state.2.2.2.2.1 stInited true true
      ⟨stInited, [dumps (cmdJson (.measure Json.null Json.null))],
        ["Measurement Timeout!"]⟩ rfl

/-- C8: the derivation step computes `power = voltage * current` and
`efficiency = thrust / power` per record; on the record with voltage 10,
current 2, thrust 4 this gives power 20 and efficiency 1/5; and when power
is 0 the elementwise pandas division yields a defined sentinel (`inf`,
`-inf`, or NaN) instead of raising. -/
theorem c8_derived_fields :
    (∀ r : MRecord,
      (derive r).power = r.voltage * r.current ∧
      (r.voltage * r.current ≠ 0 →
        (derive r).efficiency = .finite (r.thrust / (r.voltage * r.current))) ∧
      ((derive r).power = 0 →
        (derive r).efficiency = PFloat.inf ∨ (derive r).efficiency = PFloat.ninf ∨
          (derive r).efficiency = PFloat.nan)) ∧
    (derive ⟨0, 0, 10, 2, 4⟩).power = 20 ∧
    (derive ⟨0, 0, 10, 2, 4⟩).efficiency = .finite (1 / 5) ∧
    (derive ⟨0, 0, 0, 0, 1⟩).power = 0 ∧
    (derive ⟨0, 0, 0, 0, 1⟩).efficiency = PFloat.inf := by
  refine ⟨?_, by norm_num [derive], by norm_num [derive, pdiv], by norm_num [derive],
    by norm_num [derive, pdiv]⟩
  intro r
  refine ⟨rfl, ?_, ?_⟩
  · intro hnz
    simp [derive, pdiv, hnz]
  · intro h
    have hvc : r.voltage * r.current = 0 := h
    simp only [derive, pdiv, hvc]
    rcases lt_trichotomy r.thrust 0 with hlt | hzq | hgt
    · refine Or.inr (Or.inl ?_)
      rw [if_neg (by simp), if_neg (by push_neg; linarith), if_pos hlt]
    · refine Or.inr (Or.inr ?_)
      rw [if_neg (by simp), if_neg (by simp [hzq]), if_neg (by simp [hzq])]
    · exact Or.inl (by rw [if_neg (by simp), if_pos hgt])

/-- Witness for C8: the record with voltage 0, current 0, thrust 1 has
power 0 and its efficiency is one of the defined sentinels. -/
theorem c8_witness :
    (derive ⟨0, 0, 0, 0, 1⟩).efficiency = PFloat.inf ∨
    (derive ⟨0, 0, 0, 0, 1⟩).efficiency = PFloat.ninf ∨
    (derive ⟨0, 0, 0, 0, 1⟩).efficiency = PFloat.nan :=
  (c8_derived_fields.1 ⟨0, 0, 0, 0, 1⟩).2.2 (by norm_num [derive])

/-- C9: from a state where Visualize is live, a visualize event leaves the
whole loop state (including the stored MeasurementResult and
`measure_param`) exactly unchanged and writes nothing to the transport;
`visualize` itself returns the caller's data unmutated, and running it a
second time on what the first call left behind renders the identical
chart. -/
theorem c9_visualize_reentrant :
    (∀ (s : GuiState) (df : List MRecord) (mp : MeasureParam),
      s.done = false → s.flags.visualizeEnabled = true →
      s.data = some df → s.measure_param = some mp →
      step s .visualize = .ok ⟨s, [], []⟩) ∧
    (∀ (df : List MRecord) (mp : MeasureParam),
      (visualize df mp).1 = df ∧
      (visualize (visualize df mp).1 mp).2 = (visualize df mp).2) := by
  constructor
  · intro s df mp hd hv hdata hmp
    have hcalc : step s .visualize = .ok ⟨{ s with data := some df }, [], []⟩ := by
      unfold step stepVisualize
      simp [hd, hv, hdata, hmp, visualize]
    rw [hcalc, ← hdata]
  · exact fun df mp => ⟨rfl, rfl⟩

/-- A concrete post-measurement state (used by witnesses). -/
def stMeasuredW : GuiState :=
  { flags := { portEnabled := false, connectEnabled := false, lockEnabled := false,
               sysInitEnabled := false, measureEnabled := false,
               visualizeEnabled := true, saveEnabled := true },
    ws := wsLocked, data := some [⟨1, 2, 10, 2, 4⟩],
    measure_param := some ⟨some "run1", some 1⟩, done := false }

/-- Witness for C9: visualizing in the concrete measured state returns the
state unchanged with no serial writes. -/
theorem c9_witness : step stMeasuredW .visualize = .ok ⟨stMeasuredW, [], []⟩ :=
  c9_visualize_reentrant.1 stMeasuredW [⟨1, 2, 10, 2, 4⟩] ⟨some "run1", some 1⟩
    rfl rfl rfl rfl

lemma step_data_eq_of_ne_measure (s : GuiState) (e : Event) (o : StepOut)
    (h : step s e = .ok o) (hne : ∀ (c oo : Bool) (r : Option Json),
      e ≠ Event.measure c oo r) :
    o.state.data = s.data ∧ o.state.measure_param = s.measure_param := by
  cases e with
  | measure c oo r => exact absurd rfl (hne c oo r)
  | port p =>
    simp only [step] at h
    split at h
    · cases h; exact ⟨rfl, rfl⟩
    · unfold stepPort at h
      split at h <;> cases h <;> exact ⟨rfl, rfl⟩
  | connect oo =>
    simp only [step] at h
    split at h
    · cases h; exact ⟨rfl, rfl⟩
    · unfold stepConnect at h
      split at h
      · split at h
        · cases h; exact ⟨rfl, rfl⟩
        · split at h <;> cases h <;> exact ⟨rfl, rfl⟩
      · cases h; exact ⟨rfl, rfl⟩
  | lock v pe =>
    simp only [step] at h
    split at h
    · cases h; exact ⟨rfl, rfl⟩
    · unfold stepLock at h
      split at h
      · split at h <;> cases h <;> exact ⟨rfl, rfl⟩
      · cases h; exact ⟨rfl, rfl⟩
  | sysInit c oo r =>
    simp only [step] at h
    split at h
    · cases h; exact ⟨rfl, rfl⟩
    · unfold stepSysInit at h
      split at h
      · split at h
        · split at h
          · split at h
            · cases h; exact ⟨rfl, rfl⟩
            · split at h
              · cases h
              · split at h <;> cases h <;> exact ⟨rfl, rfl⟩
          · cases h
        · cases h; exact ⟨rfl, rfl⟩
      · cases h; exact ⟨rfl, rfl⟩
  | visualize =>
    simp only [step] at h
    split at h
    · cases h; exact ⟨rfl, rfl⟩
    · unfold stepVisualize at h
      split at h
      · split at h
        · next df mp hdf hmp =>
          cases h
          refine ⟨?_, rfl⟩
          rw [hdf]
          rfl
        · cases h
      · cases h; exact ⟨rfl, rfl⟩
  | saveExit =>
    simp only [step] at h
    split at h
    · cases h; exact ⟨rfl, rfl⟩
    · unfold stepSave at h
      split at h <;> cases h <;> exact ⟨rfl, rfl⟩
  | terminate c =>
    simp only [step] at h
    split at h
    · cases h; exact ⟨rfl, rfl⟩
    · unfold stepTerminate at h
      split at h <;> cases h <;> exact ⟨rfl, rfl⟩

/-- States where Visualize or Save being live implies the measurement
globals are populated. -/
def DataReady (s : GuiState) : Prop :=
  (s.flags.visualizeEnabled = true ∨ s.flags.saveEnabled = true) →
    s.data.isSome = true ∧ s.measure_param.isSome = true

lemma dataReady_step (s : GuiState) (e : Event) (o : StepOut)
    (hdr : DataReady s) (h : step s e = .ok o) : DataReady o.state := by
  rcases step_cases s e o h with
    ⟨hf, hdta, hmp⟩ | ⟨hc, hf, hdta, hmp⟩ | ⟨hl, hf, hdta, hmp⟩ | ⟨hsi, hf, hdta, hmp⟩ |
    ⟨hm, hf, hds, hmps⟩ | ⟨hm, hf, hdta, hmp⟩
  · intro hvs
    rw [hf] at hvs
    rw [hdta, hmp]
    exact hdr hvs
  · intro hvs
    rw [hf] at hvs
    rw [hdta, hmp]
    exact hdr hvs
  · intro hvs
    rw [hf] at hvs
    rw [hdta, hmp]
    exact hdr hvs
  · intro hvs
    rw [hf] at hvs
    rw [hdta, hmp]
    exact hdr hvs
  · exact fun _ => ⟨hds, hmps⟩
  · intro hvs
    rw [hf] at hvs
    rw [hdta, hmp]
    exact hdr hvs

lemma dataReady_reachable (s : GuiState) (h : Reachable s) : DataReady s := by
  induction h with
  | init =>
    intro hvs
    rcases hvs with hx | hx <;> exact Bool.noConfusion hx
  | next s e o hr hstep ih => exact dataReady_step s e o ih hstep

/-- C10: in every reachable state where Visualize or Save can fire, the
stored MeasurementResult and `measure_param` are populated; both start as
None, no non-crashing turn ever resets a populated value back to None, and
the stored data can only change through a measure event. -/
theorem c10_data_populated :
    (∀ s : GuiState, Reachable s →
      (s.flags.visualizeEnabled = true ∨ s.flags.saveEnabled = true) →
      s.data.isSome = true ∧ s.measure_param.isSome = true) ∧
    initState.data = none ∧ initState.measure_param = none ∧
    (∀ (s : GuiState) (e : Event) (o : StepOut), step s e = .ok o →
      (s.data.isSome = true → o.state.data.isSome = true) ∧
      (s.measure_param.isSome = true → o.state.measure_param.isSome = true)) ∧
    (∀ (s : GuiState) (e : Event) (o : StepOut), step s e = .ok o →
      o.state.data ≠ s.data →
      ∃ (c oo : Bool) (r : Option Json), e = Event.measure c oo r) := by
  refine ⟨fun s h => dataReady_reachable s h, rfl, rfl, ?_, ?_⟩
  · intro s e o h
    rcases step_cases s e o h with
      ⟨hf, hdta, hmp⟩ | ⟨hc, hf, hdta, hmp⟩ | ⟨hl, hf, hdta, hmp⟩ | ⟨hsi, hf, hdta, hmp⟩ |
      ⟨hm, hf, hds, hmps⟩ | ⟨hm, hf, hdta, hmp⟩
    · exact ⟨fun hx => by rwa [hdta], fun hx => by rwa [hmp]⟩
    · exact ⟨fun hx => by rwa [hdta], fun hx => by rwa [hmp]⟩
    · exact ⟨fun hx => by rwa [hdta], fun hx => by rwa [hmp]⟩
    · exact ⟨fun hx => by rwa [hdta], fun hx => by rwa [hmp]⟩
    · exact ⟨fun _ => hds, fun _ => hmps⟩
    · exact ⟨fun hx => by rwa [hdta], fun hx => by rwa [hmp]⟩
  · intro s e o h hne
    cases e
    case measure c oo r => exact ⟨c, oo, r, rfl⟩
    all_goals
      exact absurd (step_data_eq_of_ne_measure _ _ _ h
        (fun c oo r hx => by cases hx)).1 hne

/-- The state after locking `vGoodLock` from the connected state. -/
def stLockedR : GuiState :=
  { stConn with
    ws := lockedWS stConn vGoodLock,
    flags := { stConn.flags with lockEnabled := false, sysInitEnabled := true } }

/-- The state after a successful initialization from `stLockedR`. -/
def stInitedR : GuiState :=
  { stLockedR with
    flags := { stLockedR.flags with sysInitEnabled := false, measureEnabled := true } }

/-- A successful initialization response. -/
def jOkSysInit : Json :=
  Json.obj [("response_type", Json.str "sys_init"), ("ok", Json.bool true)]

/-- One measurement row as received on the wire. -/
def rowJson : Json :=
  Json.obj [("throttle", Json.num 1), ("rpm", Json.num 2), ("voltage", Json.num 10),
    ("current", Json.num 2), ("thrust", Json.num 4)]

/-- A successful measurement response with one data row. -/
def jGoodMeasure : Json :=
  Json.obj [("response_type", Json.str "measure"), ("ok", Json.bool true),
    ("data", Json.arr [rowJson])]

/-- The state after a successful measurement from `stInitedR`. -/
def stMeasuredR : GuiState :=
  { stInitedR with
    data := some [⟨1, 2, 10, 2, 4⟩],
    measure_param := some ⟨vGoodLock.name, some vGoodLock.outputScale⟩,
    flags := { stInitedR.flags with
      measureEnabled := false, visualizeEnabled := true, saveEnabled := true } }

/-- Witness for C10: an explicit reachable run — port, connect, lock,
initialize, measure — ends in a state with Visualize and Save live whose
data and measure-param are populated. -/
theorem c10_witness :
    stMeasuredR.data.isSome = true ∧ stMeasuredR.measure_param.isSome = true := by
  have r1 : Reachable stPort :=
    Reachable.next initState (.port "COM3") ⟨stPort, [], []⟩ Reachable.init rfl
  have r2 : Reachable stConn :=
    Reachable.next stPort (.connect true)
      ⟨stConn, [greeting], ["Serial Connection COM3 OK!"]⟩ r1 rfl
  have r3 : Reachable stLockedR :=
    Reachable.next stConn (.lock vGoodLock true)
      ⟨stLockedR, [], ["Session Information Locked!"]⟩ r2 rfl
  have r4 : Reachable stInitedR :=
    Reachable.next stLockedR (.sysInit true true (some jOkSysInit))
      ⟨stInitedR, [dumps (cmdJson .sys_init)], ["System Initialized!"]⟩ r3 rfl
  have r5 : Reachable stMeasuredR :=
    Reachable.next stInitedR (.measure true true (some jGoodMeasure))
      ⟨stMeasuredR, [dumps (cmdJson (.measure (Json.num 10) (Json.num 1)))],
       ["The Measurement Was Completed Flawlessly :D"]⟩ r4 rfl
  exact c10_data_populated.1 stMeasuredR r5 (Or.inl rfl)


/-- Last character of a string (used to check newline termination). -/
def lastChar (s : String) : Option Char := s.data.getLast?

/-- First character of a string. -/
def firstChar (s : String) : Option Char := s.data.head?

/-- Counterexample to C6 as stated: the connect handler writes the plain
greeting text — it neither starts with an opening brace nor ends with a
newline, so it is not a newline-terminated JSON object — and the command
sender's own write `json.dumps(cmd)` carries no trailing newline either
(its last character is the closing brace), so "every outbound write is a
single newline-terminated JSON object" is false on the code. -/
theorem c6_counterexample :
    ((step stPort (.connect true)).toOption.map StepOut.writes) = some [greeting] ∧
    lastChar greeting ≠ some (Char.ofNat 10) ∧
    firstChar greeting ≠ some (Char.ofNat 123) ∧
    dumps (cmdJson .sys_init) = "\x7b\"command_type\": \"sys_init\"\x7d" ∧
    lastChar (dumps (cmdJson .sys_init)) = some (Char.ofNat 125) := by
  refine ⟨rfl, by decide, by decide, ?_, ?_⟩
  · decide
  · decide

/-- C6 amended: every byte string any event-loop turn writes to the serial
transport is either the fixed connect greeting or `json.dumps` of one of
the two command dicts — a single-line JSON object without a trailing
newline (the source flushes right after each command write); and a
`sys_init` attempt writes exactly the one serialized `sys_init` command. -/
theorem c6_outbound_writes :
    (∀ (s : GuiState) (e : Event) (o : StepOut), step s e = .ok o →
      ∀ w ∈ o.writes, w = greeting ∨ w = dumps (cmdJson .sys_init) ∨
        ∃ st sc, w = dumps (cmdJson (.measure st sc))) ∧
    (∀ s : GuiState, s.done = false → s.flags.sysInitEnabled = true →
      ∀ o, step s (.sysInit true true none) = .ok o →
        o.writes = [dumps (cmdJson .sys_init)]) := by
  constructor
  · intro s e o h
    cases e with
    | port p =>
      simp only [step] at h
      split at h
      · cases h; intro w hw; exact absurd hw (List.not_mem_nil w)
      · unfold stepPort at h
        split at h <;> cases h <;> exact fun w hw => absurd hw (List.not_mem_nil w)
    | connect oo =>
      simp only [step] at h
      split at h
      · cases h; intro w hw; exact absurd hw (List.not_mem_nil w)
      · unfold stepConnect at h
        split at h
        · split at h
          · cases h; exact fun w hw => absurd hw (List.not_mem_nil w)
          · split at h <;> cases h
            · exact fun w hw => Or.inl (List.mem_singleton.mp hw)
            · exact fun w hw => absurd hw (List.not_mem_nil w)
        · cases h; exact fun w hw => absurd hw (List.not_mem_nil w)
    | lock v pe =>
      simp only [step] at h
      split at h
      · cases h; intro w hw; exact absurd hw (List.not_mem_nil w)
      · unfold stepLock at h
        split at h
        · split at h <;> cases h <;> exact fun w hw => absurd hw (List.not_mem_nil w)
        · cases h; exact fun w hw => absurd hw (List.not_mem_nil w)
    | sysInit c oo r =>
      simp only [step] at h
      split at h
      · cases h; intro w hw; exact absurd hw (List.not_mem_nil w)
      · unfold stepSysInit at h
        split at h
        · split at h
          · split at h
            · split at h
              · cases h
                exact fun w hw => Or.inr (Or.inl (List.mem_singleton.mp hw))
              · split at h
                · cases h
                · split at h <;> cases h
                  · exact fun w hw => Or.inr (Or.inl (List.mem_singleton.mp hw))
                  · exact fun w hw => Or.inr (Or.inl (List.mem_singleton.mp hw))
            · cases h
          · cases h; exact fun w hw => absurd hw (List.not_mem_nil w)
        · cases h; exact fun w hw => absurd hw (List.not_mem_nil w)
    | measure c oo r =>
      simp only [step] at h
      split at h
      · cases h; intro w hw; exact absurd hw (List.not_mem_nil w)
      · unfold stepMeasure at h
        split at h
        · split at h
          · split at h
            · split at h
              · cases h
                exact fun w hw => Or.inr (Or.inr ⟨_, _, List.mem_singleton.mp hw⟩)
              · split at h
                · cases h
                · split at h
                  · split at h
                    · cases h
                    · split at h
                      · cases h
                      · cases h
                        exact fun w hw =>
                          Or.inr (Or.inr ⟨_, _, List.mem_singleton.mp hw⟩)
                  · cases h
                    exact fun w hw =>
                      Or.inr (Or.inr ⟨_, _, List.mem_singleton.mp hw⟩)
            · cases h
          · cases h; exact fun w hw => absurd hw (List.not_mem_nil w)
        · cases h; exact fun w hw => absurd hw (List.not_mem_nil w)
    | visualize =>
      simp only [step] at h
      split at h
      · cases h; intro w hw; exact absurd hw (List.not_mem_nil w)
      · unfold stepVisualize at h
        split at h
        · split at h
          · cases h; exact fun w hw => absurd hw (List.not_mem_nil w)
          · cases h
        · cases h; exact fun w hw => absurd hw (List.not_mem_nil w)
    | saveExit =>
      simp only [step] at h
      split at h
      · cases h; intro w hw; exact absurd hw (List.not_mem_nil w)
      · unfold stepSave at h
        split at h <;> cases h <;> exact fun w hw => absurd hw (List.not_mem_nil w)
    | terminate c =>
      simp only [step] at h
      split at h
      · cases h; intro w hw; exact absurd hw (List.not_mem_nil w)
      · unfold stepTerminate at h
        split at h <;> cases h <;> exact fun w hw => absurd hw (List.not_mem_nil w)
  · intro s hd hsi o h
    have hcalc : step s (.sysInit true true none) =
        .ok ⟨s, [dumps (cmdJson .sys_init)], ["System Initialization Timeout!"]⟩ := by
      unfold step stepSysInit
      simp [hd, hsi]
    rw [hcalc] at h
    cases h
    rfl

/-- Witness for C6 amended: the `sys_init` attempt from the ready state
writes exactly the serialized `sys_init` command, and that write is among
the permitted wire strings. -/
theorem c6_witness :
    (⟨stReadyInit, [dumps (cmdJson .sys_init)], ["System Initialization Timeout!"]⟩ :
        StepOut).writes = [dumps (cmdJson .sys_init)] ∧
    (dumps (cmdJson .sys_init) = greeting ∨
      dumps (cmdJson .sys_init) = dumps (cmdJson .sys_init) ∨
      ∃ st sc, dumps (cmdJson .sys_init) = dumps (cmdJson (.measure st sc))) := by
  constructor
  · exact c6_outbound_writes.2 stReadyInit rfl rfl
      ⟨stReadyInit, [dumps (cmdJson .sys_init)], ["System Initialization Timeout!"]⟩ rfl
  · exact c6_outbound_writes.1 stReadyInit (.sysInit true true none)
      ⟨stReadyInit, [dumps (cmdJson .sys_init)], ["System Initialization Timeout!"]⟩ rfl
      (dumps (cmdJson .sys_init)) (by simp)
